import Mathlib

/-!
Verification of the metadata-insights core of src/run.py: the two pure
aggregation functions `extract_operation_metrics` (lines 73-98) and
`calculate_snapshot_intervals` (lines 100-126), embedded shallowly.

Modelling conventions, matched to the pandas source:
* A DataFrame is a list of row records plus table-level column-presence
  flags.  In pandas, `in snapshot` (line 90, a Series membership test) and
  `in snapshot_manifests.columns` (line 84) test column labels, which are
  the same for every row of a table and are preserved by row filtering, so
  column presence is a property of the whole table, not of a row.
* Timestamps are modelled as rational numbers of seconds; the subtraction
  plus `.total_seconds()` of line 112 becomes rational subtraction, and the
  float divisions of lines 113-114 become exact rational divisions.
* `df.empty` becomes `List.isEmpty`; `df.iterrows` together with
  `operations.append` becomes `List.filterMap` (a row is appended exactly
  when the status branch of line 84 is taken); the boolean-mask row filter
  of lines 82, 85, 86 becomes `List.filter`; `.sum()` over the selected
  `record_count` column becomes a list sum (pandas sums an empty selection
  to 0, as does `List.sum`).
* `sort_values('timestamp')` (line 105) is modelled by insertion sort on
  the timestamp key.  No claim settled here relies on the order of rows
  with equal timestamps, which pandas leaves implementation-defined under
  its default quicksort kind.
-/

namespace IcebergInsights

/-- One row of the snapshot table (columns used by the source:
`snapshot_id`, `sequence_number`, `timestamp`). -/
structure Snapshot where
  snapshot_id : Int
  sequence_number : Int
  timestamp : ℚ
deriving DecidableEq

/-- The snapshot DataFrame: rows plus presence of the `timestamp` column
(tested at lines 90 and 102 of the source). -/
structure SnapshotTable where
  hasTimestamp : Bool
  rows : List Snapshot
deriving DecidableEq

/-- One row of the manifest table (columns used by the source:
`manifest_sequence_number`, `status`, `record_count`). -/
structure ManifestEntry where
  manifest_sequence_number : Int
  status : String
  record_count : Int
deriving DecidableEq

/-- The manifest DataFrame: rows plus presence of the `status` column
(tested at line 84 of the source; row filtering preserves columns, so the
test on `snapshot_manifests` equals the test on the whole table). -/
structure ManifestTable where
  hasStatus : Bool
  rows : List ManifestEntry
deriving DecidableEq

/-- One output row of `extract_operation_metrics` (the dict of lines
88-96).  `timestamp` is `none` when the snapshot table lacks the column
(`pd.NaT` branch of line 90). -/
structure OperationMetric where
  snapshot_id : Int
  timestamp : Option ℚ
  sequence_number : Int
  added_records : Int
  deleted_records : Int
  net_change : Int
  manifest_count : Nat
deriving DecidableEq

/-- The dict built at lines 88-96 for one snapshot, inside the status
branch: the manifest rows joined on `sequence_number`, the ADDED and
DELETED sums, their difference, and the join cardinality. -/
def opRow (manifest_df : ManifestTable) (hasTs : Bool) (snapshot : Snapshot) :
    OperationMetric :=
  let seq_num := snapshot.sequence_number
  let snapshot_manifests :=
    manifest_df.rows.filter (fun e => e.manifest_sequence_number == seq_num)
  let adds :=
    ((snapshot_manifests.filter (fun e => e.status == "ADDED")).map
      ManifestEntry.record_count).sum
  let deletes :=
    ((snapshot_manifests.filter (fun e => e.status == "DELETED")).map
      ManifestEntry.record_count).sum
  { snapshot_id := snapshot.snapshot_id
    timestamp := if hasTs then some snapshot.timestamp else none
    sequence_number := seq_num
    added_records := adds
    deleted_records := deletes
    net_change := adds - deletes
    manifest_count := snapshot_manifests.length }

/-- The body of the per-snapshot loop (lines 80-96): appends one row when
the `status` column exists, otherwise appends nothing. -/
def snapshotMetric (manifest_df : ManifestTable) (hasTs : Bool)
    (snapshot : Snapshot) : Option OperationMetric :=
  if manifest_df.hasStatus then some (opRow manifest_df hasTs snapshot) else none

/-- `extract_operation_metrics` (src/run.py lines 73-98): empty-input
guard of line 75, then the loop of lines 80-96. -/
def extract_operation_metrics (snapshots_df : SnapshotTable)
    (manifest_df : ManifestTable) : List OperationMetric :=
  if manifest_df.rows.isEmpty || snapshots_df.rows.isEmpty then []
  else snapshots_df.rows.filterMap
    (snapshotMetric manifest_df snapshots_df.hasTimestamp)

/-- One output row of `calculate_snapshot_intervals` (the dict of lines
116-124). -/
structure SnapshotInterval where
  previous_snapshot : Int
  current_snapshot : Int
  previous_time : ℚ
  current_time : ℚ
  interval_seconds : ℚ
  interval_hours : ℚ
  interval_days : ℚ
deriving DecidableEq

/-- The dict built at lines 116-124 for one adjacent pair: one subtraction
(line 112) and the two derived unit conversions (lines 113-114). -/
def mkInterval (prev curr : Snapshot) : SnapshotInterval :=
  let time_diff := curr.timestamp - prev.timestamp
  { previous_snapshot := prev.snapshot_id
    current_snapshot := curr.snapshot_id
    previous_time := prev.timestamp
    current_time := curr.timestamp
    interval_seconds := time_diff
    interval_hours := time_diff / 3600
    interval_days := time_diff / (3600 * 24) }

/-- The timestamp key order used by the sort of line 105. -/
def tsLE (a b : Snapshot) : Prop := a.timestamp ≤ b.timestamp

instance : DecidableRel tsLE := fun a b =>
  inferInstanceAs (Decidable (a.timestamp ≤ b.timestamp))

instance : IsTotal Snapshot tsLE := ⟨fun a b => le_total a.timestamp b.timestamp⟩

instance : IsTrans Snapshot tsLE := ⟨fun _ _ _ h1 h2 => le_trans h1 h2⟩

/-- The timestamp key order strengthened to an antisymmetric relation, used
to show the sorted sequence is unique when timestamps are distinct. -/
def tsKey (a b : Snapshot) : Prop := a.timestamp < b.timestamp ∨ a = b

instance : IsAntisymm Snapshot tsKey := ⟨by
  rintro a b (h1 | rfl) h2
  · rcases h2 with h2 | h2
    · exact absurd h2 (not_lt.mpr h1.le)
    · exact h2.symm
  · rfl⟩

/-- The loop of lines 108-124: one interval row per adjacent pair of the
sorted sequence. -/
def adjacentIntervals : List Snapshot → List SnapshotInterval
  | prev :: curr :: rest => mkInterval prev curr :: adjacentIntervals (curr :: rest)
  | _ => []

/-- `calculate_snapshot_intervals` (src/run.py lines 100-126): the guard of
line 102, the sort of line 105, then the adjacent-pair loop. -/
def calculate_snapshot_intervals (snapshots_df : SnapshotTable) :
    List SnapshotInterval :=
  if !snapshots_df.hasTimestamp || snapshots_df.rows.length ≤ 1 then []
  else adjacentIntervals (List.insertionSort tsLE snapshots_df.rows)

/-- Scenario table: two snapshots one hour apart (spec §8, Scenario A). -/
def sTabA : SnapshotTable := ⟨true, [⟨1, 1, 0⟩, ⟨2, 2, 3600⟩]⟩

/-- Scenario manifest: one ADDED entry for sequence 1, one DELETED for 2. -/
def mTabA : ManifestTable := ⟨true, [⟨1, "ADDED", 100⟩, ⟨2, "DELETED", 30⟩]⟩

/-- The rows of `sTabA` in reversed order. -/
def sTabARev : SnapshotTable := ⟨true, [⟨2, 2, 3600⟩, ⟨1, 1, 0⟩]⟩

/-- Two snapshots sharing one timestamp, in one input order. -/
def tiedA : SnapshotTable := ⟨true, [⟨1, 1, 0⟩, ⟨2, 2, 0⟩]⟩

/-- The same two tied snapshots in the other input order. -/
def tiedB : SnapshotTable := ⟨true, [⟨2, 2, 0⟩, ⟨1, 1, 0⟩]⟩

/-- A nonempty manifest table lacking the `status` column. -/
def mTabNoStatus : ManifestTable := ⟨false, [⟨1, "ADDED", 100⟩]⟩

/-- Two snapshots sharing sequence number 5. -/
def sTabDup : SnapshotTable := ⟨true, [⟨1, 5, 0⟩, ⟨2, 5, 10⟩]⟩

/-- One manifest entry joined by both snapshots of `sTabDup`. -/
def mTabDup : ManifestTable := ⟨true, [⟨5, "ADDED", 7⟩]⟩

lemma length_adjacentIntervals :
    ∀ l : List Snapshot, (adjacentIntervals l).length = l.length - 1
  | [] => rfl
  | [_] => rfl
  | a :: b :: rest => by
      rw [adjacentIntervals]
      have ih := length_adjacentIntervals (b :: rest)
      simp only [List.length_cons] at *
      omega

lemma extract_no_status (s : SnapshotTable) (mf : ManifestTable)
    (h : mf.hasStatus = false) : extract_operation_metrics s mf = [] := by
  rw [extract_operation_metrics]
  split
  · rfl
  · simp [snapshotMetric, h]

lemma filterMap_all_some {α β : Type} (f : α → β) :
    ∀ l : List α, List.filterMap (fun a => some (f a)) l = l.map f
  | [] => rfl
  | a :: t => by
      simp [List.filterMap_cons, filterMap_all_some f t]

lemma extract_with_status (s : SnapshotTable) (mf : ManifestTable)
    (h : mf.hasStatus = true) (hm : mf.rows ≠ []) (hs : s.rows ≠ []) :
    extract_operation_metrics s mf = s.rows.map (opRow mf s.hasTimestamp) := by
  rw [extract_operation_metrics, if_neg (by simp [hm, hs])]
  have hf : snapshotMetric mf s.hasTimestamp =
      fun sn => some (opRow mf s.hasTimestamp sn) := by
    funext sn
    simp [snapshotMetric, h]
  rw [hf, filterMap_all_some]

lemma mem_extract {s : SnapshotTable} {mf : ManifestTable} {m : OperationMetric}
    (hm : m ∈ extract_operation_metrics s mf) :
    mf.hasStatus = true ∧ ∃ sn ∈ s.rows, m = opRow mf s.hasTimestamp sn := by
  rw [extract_operation_metrics] at hm
  split at hm
  · cases hm
  · obtain ⟨sn, hsn, hEq⟩ := List.mem_filterMap.mp hm
    rw [snapshotMetric] at hEq
    split at hEq
    · next hstat => exact ⟨hstat, sn, hsn, (Option.some.inj hEq).symm⟩
    · cases hEq

lemma mem_adjacentIntervals : ∀ {l : List Snapshot} {r : SnapshotInterval},
    r ∈ adjacentIntervals l → ∃ a b, r = mkInterval a b
  | a :: b :: _, _, hr => by
      rw [adjacentIntervals] at hr
      rcases List.mem_cons.mp hr with h | h
      · exact ⟨a, b, h⟩
      · exact mem_adjacentIntervals h
  | [], _, hr => by cases hr
  | [_], _, hr => by cases hr

lemma adjacentIntervals_nonneg : ∀ {l : List Snapshot}, l.Sorted tsLE →
    ∀ r ∈ adjacentIntervals l, 0 ≤ r.interval_seconds
  | [], _, _, hr => by cases hr
  | [_], _, _, hr => by cases hr
  | a :: b :: rest, hs, r, hr => by
      rw [adjacentIntervals] at hr
      have hab : tsLE a b := (List.sorted_cons.mp hs).1 b (by simp)
      rcases List.mem_cons.mp hr with h | h
      · subst h
        exact sub_nonneg.mpr hab
      · exact adjacentIntervals_nonneg (List.sorted_cons.mp hs).2 r h

/-- C1: for a snapshot table with the timestamp column and N ≥ 2 rows,
`calculate_snapshot_intervals` returns exactly N − 1 interval rows, one per
adjacent pair of the timestamp-sorted sequence; for N < 2 or when the
timestamp column is absent it returns exactly 0 rows. -/
theorem interval_count_law (t : SnapshotTable) :
    (calculate_snapshot_intervals t).length =
      if t.hasTimestamp ∧ 2 ≤ t.rows.length then t.rows.length - 1 else 0 := by
  rw [calculate_snapshot_intervals]
  cases h1 : t.hasTimestamp with
  | false => simp [h1]
  | true =>
      by_cases h2 : t.rows.length ≤ 1
      · have : ¬ (t.hasTimestamp ∧ 2 ≤ t.rows.length) := by
          rintro ⟨-, hge⟩; omega
        simp [h1, h2, this]
      · have hlen : (List.insertionSort tsLE t.rows).length = t.rows.length :=
          (List.perm_insertionSort tsLE t.rows).length_eq
        have h3 : 2 ≤ t.rows.length := by omega
        simp [h1, h2, h3, length_adjacentIntervals, hlen]

/-- C2: every OperationMetric row has `manifest_count` equal to the number
of manifest entries whose `manifest_sequence_number` equals the rows own
`sequence_number`, counted regardless of status, while `added_records` and
`deleted_records` sum `record_count` over only the ADDED, respectively
DELETED, entries of that same matching subset. -/
theorem join_cardinality (s : SnapshotTable) (mf : ManifestTable)
    (m : OperationMetric) (hm : m ∈ extract_operation_metrics s mf) :
    m.manifest_count = (mf.rows.filter
        (fun e => e.manifest_sequence_number == m.sequence_number)).length ∧
    m.added_records = (((mf.rows.filter
        (fun e => e.manifest_sequence_number == m.sequence_number)).filter
        (fun e => e.status == "ADDED")).map ManifestEntry.record_count).sum ∧
    m.deleted_records = (((mf.rows.filter
        (fun e => e.manifest_sequence_number == m.sequence_number)).filter
        (fun e => e.status == "DELETED")).map ManifestEntry.record_count).sum := by
  obtain ⟨-, sn, -, rfl⟩ := mem_extract hm
  exact ⟨rfl, rfl, rfl⟩

/-- C2 witness: the theorem applied to Scenario A, first output row. -/
theorem join_cardinality_witness :
    OperationMetric.manifest_count ⟨1, some 0, 1, 100, 0, 100, 1⟩ =
      (mTabA.rows.filter (fun e => e.manifest_sequence_number ==
        OperationMetric.sequence_number ⟨1, some 0, 1, 100, 0, 100, 1⟩)).length ∧
    OperationMetric.added_records ⟨1, some 0, 1, 100, 0, 100, 1⟩ =
      (((mTabA.rows.filter (fun e => e.manifest_sequence_number ==
        OperationMetric.sequence_number ⟨1, some 0, 1, 100, 0, 100, 1⟩)).filter
        (fun e => e.status == "ADDED")).map ManifestEntry.record_count).sum ∧
    OperationMetric.deleted_records ⟨1, some 0, 1, 100, 0, 100, 1⟩ =
      (((mTabA.rows.filter (fun e => e.manifest_sequence_number ==
        OperationMetric.sequence_number ⟨1, some 0, 1, 100, 0, 100, 1⟩)).filter
        (fun e => e.status == "DELETED")).map ManifestEntry.record_count).sum :=
  join_cardinality sTabA mTabA ⟨1, some 0, 1, 100, 0, 100, 1⟩ (by decide)

/-- C3: every OperationMetric row satisfies
`net_change = added_records - deleted_records` exactly. -/
theorem net_change_decomposition (s : SnapshotTable) (mf : ManifestTable)
    (m : OperationMetric) (hm : m ∈ extract_operation_metrics s mf) :
    m.net_change = m.added_records - m.deleted_records := by
  obtain ⟨-, sn, -, rfl⟩ := mem_extract hm
  rfl

/-- C3 witness: the theorem applied to Scenario A, second output row. -/
theorem net_change_decomposition_witness :
    OperationMetric.net_change ⟨2, some 3600, 2, 0, 30, -30, 1⟩ =
      OperationMetric.added_records ⟨2, some 3600, 2, 0, 30, -30, 1⟩ -
      OperationMetric.deleted_records ⟨2, some 3600, 2, 0, 30, -30, 1⟩ :=
  net_change_decomposition sTabA mTabA ⟨2, some 3600, 2, 0, 30, -30, 1⟩ (by decide)

/-- C6: when the manifest input lacks the status column, every snapshot is
skipped and the call returns the empty list rather than an error. -/
theorem skip_when_no_status (s : SnapshotTable) (mf : ManifestTable)
    (h : mf.hasStatus = false) : extract_operation_metrics s mf = [] :=
  extract_no_status s mf h

/-- C6 witness: the theorem applied to a nonempty statusless manifest. -/
theorem skip_when_no_status_witness :
    extract_operation_metrics sTabA mTabNoStatus = [] :=
  skip_when_no_status sTabA mTabNoStatus rfl

/-- C9: with nonempty snapshot and manifest inputs, the result has exactly
one row per snapshot when the manifest table has a status column and zero
rows otherwise, so its length is never strictly between 0 and the snapshot
count. -/
theorem all_or_nothing_cardinality (s : SnapshotTable) (mf : ManifestTable)
    (hs : s.rows ≠ []) (hm : mf.rows ≠ []) :
    (extract_operation_metrics s mf).length =
      if mf.hasStatus then s.rows.length else 0 := by
  cases h : mf.hasStatus with
  | false => simp [extract_no_status s mf h, h]
  | true => simp [extract_with_status s mf h hm hs, h]

/-- C9 witness: the theorem applied to Scenario A. -/
theorem all_or_nothing_cardinality_witness :
    (extract_operation_metrics sTabA mTabA).length =
      if mTabA.hasStatus then sTabA.rows.length else 0 :=
  all_or_nothing_cardinality sTabA mTabA (by decide) (by decide)

/-- C5 counterexample: two tables holding the same snapshots (equal
timestamps) in different input orders produce different interval rows, so
`calculate_snapshot_intervals` is not invariant under every permutation. -/
theorem perm_invariance_counterexample :
    List.Perm tiedA.rows tiedB.rows ∧ tiedA.hasTimestamp = tiedB.hasTimestamp ∧
    calculate_snapshot_intervals tiedA ≠ calculate_snapshot_intervals tiedB :=
  ⟨by decide, rfl, by decide⟩

/-- C5 amended: when the input timestamps are pairwise distinct, any
permutation of the snapshot rows yields the same output sequence of
interval rows. -/
theorem perm_invariance_distinct_timestamps (t₁ t₂ : SnapshotTable)
    (hts : t₁.hasTimestamp = t₂.hasTimestamp)
    (hperm : List.Perm t₁.rows t₂.rows)
    (hinj : t₁.rows.Pairwise (fun a b => a.timestamp ≠ b.timestamp)) :
    calculate_snapshot_intervals t₁ = calculate_snapshot_intervals t₂ := by
  have hlen := hperm.length_eq
  rw [calculate_snapshot_intervals, calculate_snapshot_intervals, hts, hlen]
  split
  · rfl
  · have hinj₂ : t₂.rows.Pairwise (fun a b => a.timestamp ≠ b.timestamp) :=
      (hperm.pairwise_iff (fun h => Ne.symm h)).mp hinj
    have key : ∀ l : List Snapshot,
        l.Pairwise (fun a b => a.timestamp ≠ b.timestamp) →
        (List.insertionSort tsLE l).Sorted tsKey := by
      intro l hl
      have h1 : (List.insertionSort tsLE l).Sorted tsLE :=
        List.sorted_insertionSort tsLE l
      have h2 : (List.insertionSort tsLE l).Pairwise
          (fun a b => a.timestamp ≠ b.timestamp) :=
        ((List.perm_insertionSort tsLE l).pairwise_iff
          (fun h => Ne.symm h)).mpr hl
      exact (h1.and h2).imp (fun h => Or.inl (lt_of_le_of_ne h.1 h.2))
    have hp : List.Perm (List.insertionSort tsLE t₁.rows)
        (List.insertionSort tsLE t₂.rows) :=
      ((List.perm_insertionSort tsLE t₁.rows).trans hperm).trans
        (List.perm_insertionSort tsLE t₂.rows).symm
    rw [List.eq_of_perm_of_sorted hp (key t₁.rows hinj) (key t₂.rows hinj₂)]

/-- C5 amended witness: Scenario A and its reversal, distinct timestamps. -/
theorem perm_invariance_distinct_timestamps_witness :
    calculate_snapshot_intervals sTabA = calculate_snapshot_intervals sTabARev :=
  perm_invariance_distinct_timestamps sTabA sTabARev rfl (by decide) (by decide)

/-- C7: every interval row carries one duration, with
`interval_seconds = current_time - previous_time`,
`interval_hours = interval_seconds / 3600` and
`interval_days = interval_seconds / 86400` exactly. -/
theorem unit_consistency (t : SnapshotTable) (r : SnapshotInterval)
    (hr : r ∈ calculate_snapshot_intervals t) :
    r.interval_seconds = r.current_time - r.previous_time ∧
    r.interval_hours = r.interval_seconds / 3600 ∧
    r.interval_days = r.interval_seconds / 86400 := by
  rw [calculate_snapshot_intervals] at hr
  split at hr
  · cases hr
  · obtain ⟨a, b, rfl⟩ := mem_adjacentIntervals hr
    refine ⟨rfl, rfl, ?_⟩
    show (b.timestamp - a.timestamp) / (3600 * 24) =
      (b.timestamp - a.timestamp) / 86400
    norm_num

/-- C7 witness: the theorem applied to the interval row of Scenario A. -/
theorem unit_consistency_witness :
    SnapshotInterval.interval_seconds (mkInterval ⟨1, 1, 0⟩ ⟨2, 2, 3600⟩) =
      SnapshotInterval.current_time (mkInterval ⟨1, 1, 0⟩ ⟨2, 2, 3600⟩) -
      SnapshotInterval.previous_time (mkInterval ⟨1, 1, 0⟩ ⟨2, 2, 3600⟩) ∧
    SnapshotInterval.interval_hours (mkInterval ⟨1, 1, 0⟩ ⟨2, 2, 3600⟩) =
      SnapshotInterval.interval_seconds (mkInterval ⟨1, 1, 0⟩ ⟨2, 2, 3600⟩) / 3600 ∧
    SnapshotInterval.interval_days (mkInterval ⟨1, 1, 0⟩ ⟨2, 2, 3600⟩) =
      SnapshotInterval.interval_seconds (mkInterval ⟨1, 1, 0⟩ ⟨2, 2, 3600⟩) / 86400 :=
  unit_consistency sTabA (mkInterval ⟨1, 1, 0⟩ ⟨2, 2, 3600⟩) (by
    have h : calculate_snapshot_intervals sTabA =
        [mkInterval ⟨1, 1, 0⟩ ⟨2, 2, 3600⟩] := rfl
    rw [h]
    exact List.mem_singleton.mpr rfl)

/-- C8: every interval row has nonnegative `interval_seconds`, because the
rows are sorted ascending by timestamp before adjacent pairs are
differenced. -/
theorem interval_nonneg (t : SnapshotTable) (r : SnapshotInterval)
    (hr : r ∈ calculate_snapshot_intervals t) : 0 ≤ r.interval_seconds := by
  rw [calculate_snapshot_intervals] at hr
  split at hr
  · cases hr
  · exact adjacentIntervals_nonneg (List.sorted_insertionSort tsLE t.rows) r hr

/-- C8 witness: the theorem applied to the tied-timestamp table, whose one
interval has duration zero. -/
theorem interval_nonneg_witness :
    0 ≤ SnapshotInterval.interval_seconds (mkInterval ⟨1, 1, 0⟩ ⟨2, 2, 0⟩) :=
  interval_nonneg tiedA (mkInterval ⟨1, 1, 0⟩ ⟨2, 2, 0⟩) (by
    have h : calculate_snapshot_intervals tiedA =
        [mkInterval ⟨1, 1, 0⟩ ⟨2, 2, 0⟩] := rfl
    rw [h]
    exact List.mem_singleton.mpr rfl)

/-- C10: snapshots sharing a `sequence_number` each receive their own
output row, computed from the identical set of matching manifest entries,
so those rows agree on every aggregated field. -/
theorem duplicate_sequence_tolerance (s : SnapshotTable) (mf : ManifestTable)
    (hstat : mf.hasStatus = true) (hm : mf.rows ≠ [])
    (i j : Nat) (hi : i < s.rows.length) (hj : j < s.rows.length)
    (hseq : (s.rows.get ⟨i, hi⟩).sequence_number =
      (s.rows.get ⟨j, hj⟩).sequence_number) :
    ∃ ra rb, (extract_operation_metrics s mf)[i]? = some ra ∧
      (extract_operation_metrics s mf)[j]? = some rb ∧
      ra.sequence_number = rb.sequence_number ∧
      ra.added_records = rb.added_records ∧
      ra.deleted_records = rb.deleted_records ∧
      ra.net_change = rb.net_change ∧
      ra.manifest_count = rb.manifest_count ∧
      mf.rows.filter (fun e => e.manifest_sequence_number == ra.sequence_number) =
        mf.rows.filter (fun e => e.manifest_sequence_number == rb.sequence_number) := by
  have hs : s.rows ≠ [] := by
    intro h
    rw [h] at hi
    exact absurd hi (by simp)
  rw [extract_with_status s mf hstat hm hs]
  have e1 : (List.map (opRow mf s.hasTimestamp) s.rows)[i]? =
      some (opRow mf s.hasTimestamp (s.rows.get ⟨i, hi⟩)) := by
    rw [List.getElem?_map, List.getElem?_eq_getElem hi]
    rfl
  have e2 : (List.map (opRow mf s.hasTimestamp) s.rows)[j]? =
      some (opRow mf s.hasTimestamp (s.rows.get ⟨j, hj⟩)) := by
    rw [List.getElem?_map, List.getElem?_eq_getElem hj]
    rfl
  refine ⟨opRow mf s.hasTimestamp (s.rows.get ⟨i, hi⟩),
          opRow mf s.hasTimestamp (s.rows.get ⟨j, hj⟩),
          e1, e2, hseq, ?_, ?_, ?_, ?_, ?_⟩
  all_goals
    have hseq' : (s.rows[i]).sequence_number = (s.rows[j]).sequence_number := hseq
    simp [opRow, hseq']

/-- C10 witness: two snapshots with sequence number 5 over one shared
manifest entry. -/
theorem duplicate_sequence_tolerance_witness :
    ∃ ra rb, (extract_operation_metrics sTabDup mTabDup)[0]? = some ra ∧
      (extract_operation_metrics sTabDup mTabDup)[1]? = some rb ∧
      ra.sequence_number = rb.sequence_number ∧
      ra.added_records = rb.added_records ∧
      ra.deleted_records = rb.deleted_records ∧
      ra.net_change = rb.net_change ∧
      ra.manifest_count = rb.manifest_count ∧
      mTabDup.rows.filter
        (fun e => e.manifest_sequence_number == ra.sequence_number) =
      mTabDup.rows.filter
        (fun e => e.manifest_sequence_number == rb.sequence_number) :=
  duplicate_sequence_tolerance sTabDup mTabDup rfl (by decide) 0 1
    (by decide) (by decide) (by decide)

end IcebergInsights
